import Mathlib

/-!
Verification of the layered request-handling pipeline of the
FastAPI-Book-Service examples: route dispatch, parameter classification,
validation, dependency resolution with caching and teardown, response
shaping, and the concrete handlers of the numbered example folders.

The handlers (validate_age, create_item, delete_item, create_user, the
registered routes, the parameter and schema declarations) are translated
from the Python files under src/.  The framework machinery they run on
(dispatcher, parameter resolver, schema validator, dependency resolver,
response shaper) is not part of the repository; those components are
modelled from the spec, as marked on each definition.
-/

namespace BookService

/-! ### Route dispatcher

Modelled from the spec: the dispatcher itself is framework code absent
from src/.  A path pattern is an ordered sequence of literal and variable
segments; a pattern matches a raw path when every literal segment equals
the corresponding raw segment and every variable segment accepts any
non-empty segment value; dispatch compares registered routes in
registration order and the first match wins. -/

inductive Segment where
  | lit (s : String)
  | var (name : String)
deriving DecidableEq, Repr

structure Route where
  method : String
  pattern : List Segment
  handler : String
deriving DecidableEq, Repr

def segMatches : Segment → String → Bool
  | .lit s, raw => s == raw
  | .var _, raw => raw != ""

def patMatches : List Segment → List String → Bool
  | [], [] => true
  | p :: ps, r :: rs => segMatches p r && patMatches ps rs
  | _, _ => false

def dispatch (routes : List Route) (method : String) (rawPath : List String) :
    Option Route :=
  routes.find? (fun rt => rt.method == method && patMatches rt.pattern rawPath)

/-- The routes of src/02-path-parameters/main2.py, in registration order:
the literal route /products/latest is registered before the variable route
/products/\x7bproduct_id\x7d. -/
def routes2 : List Route :=
  [ ⟨"GET", [], "read_root"⟩,
    ⟨"GET", [.lit "users", .var "user_id"], "get_user"⟩,
    ⟨"GET", [.lit "users", .var "username", .lit "profile"], "get_user_profile"⟩,
    ⟨"GET", [.lit "items", .var "item_id", .lit "details"], "get_item_details"⟩,
    ⟨"GET", [.lit "products", .lit "latest"], "get_latest_products"⟩,
    ⟨"GET", [.lit "products", .var "product_id"], "get_product"⟩ ]

/-- The same routes with the two /products routes registered in the reverse
order (the variable route first). -/
def routes2rev : List Route :=
  [ ⟨"GET", [], "read_root"⟩,
    ⟨"GET", [.lit "users", .var "user_id"], "get_user"⟩,
    ⟨"GET", [.lit "users", .var "username", .lit "profile"], "get_user_profile"⟩,
    ⟨"GET", [.lit "items", .var "item_id", .lit "details"], "get_item_details"⟩,
    ⟨"GET", [.lit "products", .var "product_id"], "get_product"⟩,
    ⟨"GET", [.lit "products", .lit "latest"], "get_latest_products"⟩ ]

/-! ### Status-code example handlers (src/06-status-codes/main6.py) -/

structure HTTPError where
  status : Nat
  detail : String
deriving DecidableEq, Repr

/-- validate_age from src/06-status-codes/main6.py, lines 81-96: a 400
error for a negative age, a 403 error for an age below 18, otherwise the
welcome message. -/
def validate_age (age : Int) : Except HTTPError String :=
  if age < 0 then
    .error ⟨400, "Age cannot be negative"⟩
  else if age < 18 then
    .error ⟨403, "You must be 18 or older"⟩
  else
    .ok ("Welcome! You are " ++ toString age ++ " years old")

/-- An item of src/06-status-codes/main6.py.  The float price is modelled
in cents so that the store stays exactly computable. -/
structure Item where
  name : String
  priceCents : Int
deriving DecidableEq, Repr

/-- The item store: Python dict fake_items, as an association list of
(id, item) in insertion order. -/
abbrev ItemStore := List (Nat × Item)

/-- The three seeded items of fake_items. -/
def fakeItems : ItemStore :=
  [ (1, ⟨"Laptop", 99999⟩), (2, ⟨"Mouse", 2999⟩), (3, ⟨"Keyboard", 7999⟩) ]

def itemKeys (store : ItemStore) : List Nat := store.map Prod.fst

/-- create_item from src/06-status-codes/main6.py, lines 38-45:
new_id = max(fake_items.keys()) + 1, then insert.  Python max() raises on
an empty sequence, modelled as none. -/
def create_item (store : ItemStore) (item : Item) :
    Option (Nat × ItemStore) :=
  match itemKeys store with
  | [] => none
  | k :: ks =>
      let newId := (ks.foldl max k) + 1
      some (newId, store ++ [(newId, item)])

/-- delete_item from src/06-status-codes/main6.py, lines 47-58: 404 when
the id is absent, otherwise remove it from the store (204). -/
def delete_item (store : ItemStore) (itemId : Nat) :
    Except HTTPError ItemStore :=
  if (itemKeys store).contains itemId then
    .ok (store.filter (fun kv => kv.1 != itemId))
  else
    .error ⟨404, "Item " ++ toString itemId ++ " not found"⟩

/-! ### Values and semantic types

A runtime value of the pipeline (a parsed JSON scalar, object or array).
Floats never occur in the validated claims; the only numeric semantic
type the embedded schemas use is the integer. -/

inductive Value where
  | vInt (n : Int)
  | vStr (s : String)
  | vBool (b : Bool)
  | vNone
  | vObj (fields : List (String × Value))
  | vList (elems : List Value)
deriving Repr

inductive SemType where
  | tInt
  | tStr
  | tBool
  | tSchema (name : String)
deriving DecidableEq, Repr

/-- Whether a semantic type is a structured schema type. -/
def SemType.isStructured : SemType → Bool
  | .tSchema _ => true
  | _ => false

/-! ### Parameter classification

Modelled from the spec: a parameter is a path parameter if its name
matches a variable segment name in the route pattern; otherwise a body
parameter if its declared semantic type is a structured schema type;
otherwise a query parameter. -/

structure ParamDecl where
  pname : String
  ptype : SemType
  pdefault : Option Value

inductive ParamSource where
  | path
  | query
  | body
deriving DecidableEq, Repr

def patternVarNames : List Segment → List String
  | [] => []
  | .var n :: ps => n :: patternVarNames ps
  | .lit _ :: ps => patternVarNames ps

def classify (pattern : List Segment) (p : ParamDecl) : ParamSource :=
  if (patternVarNames pattern).contains p.pname then .path
  else if p.ptype.isStructured then .body
  else .query

/-- The route pattern of POST /mixed (src/04, mixed_parameters): no
variable segments. -/
def mixedPattern : List Segment := [.lit "mixed"]

/-- The declared parameters of mixed_parameters, in declaration order:
user_id : int (no default), user : User (a structured schema type),
token : str = "default-token". -/
def mixedParams : List ParamDecl :=
  [ ⟨"user_id", .tInt, none⟩,
    ⟨"user", .tSchema "User", none⟩,
    ⟨"token", .tStr, some (.vStr "default-token")⟩ ]

/-! ### Query parameter resolution

Modelled from the spec: a raw query string value is coerced to the
declared semantic type; a parameter with a default is optional and
resolves to the default when omitted; one without a default is required
and its omission is a validation failure naming the field.  All field
errors are collected, not short-circuited. -/

inductive FieldError where
  | missing (field : String)
  | coercionFailure (field : String) (expected : SemType)
  | rangeViolation (field : String)
  | lengthViolation (field : String)
  | patternViolation (field : String)
deriving DecidableEq, Repr

def FieldError.field : FieldError → String
  | .missing f => f
  | .coercionFailure f _ => f
  | .rangeViolation f => f
  | .lengthViolation f => f
  | .patternViolation f => f

def coerce : SemType → String → Option Value
  | .tStr, s => some (.vStr s)
  | .tInt, s => (s.toInt?).map .vInt
  | .tBool, s =>
      if s == "true" || s == "1" then some (.vBool true)
      else if s == "false" || s == "0" then some (.vBool false)
      else none
  | .tSchema _, _ => none

def resolveQueryParam (raw : List (String × String)) (p : ParamDecl) :
    Except FieldError (String × Value) :=
  match raw.lookup p.pname with
  | some s =>
      match coerce p.ptype s with
      | some v => .ok (p.pname, v)
      | none => .error (.coercionFailure p.pname p.ptype)
  | none =>
      match p.pdefault with
      | some d => .ok (p.pname, d)
      | none => .error (.missing p.pname)

/-- Collect every error of a result list, or all values when no step
failed (validation does not short-circuit across fields). -/
def collectResults (rs : List (Except FieldError (String × Value))) :
    Except (List FieldError) (List (String × Value)) :=
  let errs := rs.filterMap (fun r => match r with | .error e => some e | .ok _ => none)
  match errs with
  | [] => .ok (rs.filterMap (fun r => match r with | .ok x => some x | .error _ => none))
  | _ => .error errs

def resolveQuery (specs : List ParamDecl) (raw : List (String × String)) :
    Except (List FieldError) (List (String × Value)) :=
  collectResults (specs.map (resolveQueryParam raw))

/-- The declared parameters of GET /search
(src/03-query-parameters/main3.py, search): q : str required,
limit : int = 10. -/
def searchParams : List ParamDecl :=
  [ ⟨"q", .tStr, none⟩, ⟨"limit", .tInt, some (.vInt 10)⟩ ]

/-! ### Schema validator

Modelled from the spec: per field, check required/absence, apply the
default if absent and optional, check the semantic type, then constraints
in order range, length, pattern; a field failing type coercion skips its
constraints; errors are collected across fields. -/

structure FieldSpec where
  fname : String
  ftype : SemType
  required : Bool
  fdefault : Option Value
  geBound : Option Int
  leBound : Option Int
  minLength : Option Nat
  maxLength : Option Nat
  emailFormat : Bool

/-- A plain FieldSpec with no constraints. -/
def FieldSpec.plain (name : String) (t : SemType) (req : Bool)
    (dflt : Option Value) : FieldSpec :=
  ⟨name, t, req, dflt, none, none, none, none, false⟩

/-- Modelled from the spec: the pattern constraint "looks like an email
address". -/
def isEmail (s : String) : Bool := s.contains '@'

def typeCheck : SemType → Value → Option Value
  | .tInt, .vInt n => some (.vInt n)
  | .tStr, .vStr s => some (.vStr s)
  | .tBool, .vBool b => some (.vBool b)
  | _, _ => none

def checkRange (f : FieldSpec) (v : Value) : Bool :=
  (match f.geBound, v with
    | some b, .vInt n => b ≤ n
    | _, _ => true) &&
  (match f.leBound, v with
    | some b, .vInt n => n ≤ b
    | _, _ => true)

def checkLength (f : FieldSpec) (v : Value) : Bool :=
  (match f.minLength, v with
    | some b, .vStr s => b ≤ s.length
    | _, _ => true) &&
  (match f.maxLength, v with
    | some b, .vStr s => s.length ≤ b
    | _, _ => true)

def checkFormat (f : FieldSpec) (v : Value) : Bool :=
  !f.emailFormat ||
  (match v with
    | .vStr s => isEmail s
    | _ => false)

/-- Constraints in declared order: range, then length, then pattern. -/
def constraintError (f : FieldSpec) (v : Value) : Option FieldError :=
  if !checkRange f v then some (.rangeViolation f.fname)
  else if !checkLength f v then some (.lengthViolation f.fname)
  else if !checkFormat f v then some (.patternViolation f.fname)
  else none

def validateField (raw : List (String × Value)) (f : FieldSpec) :
    Except FieldError (String × Value) :=
  match raw.lookup f.fname with
  | none =>
      if f.required then .error (.missing f.fname)
      else .ok (f.fname, f.fdefault.getD .vNone)
  | some v =>
      match typeCheck f.ftype v with
      | none => .error (.coercionFailure f.fname f.ftype)
      | some v2 =>
          match constraintError f v2 with
          | some e => .error e
          | none => .ok (f.fname, v2)

def validate (schema : List FieldSpec) (raw : List (String × Value)) :
    Except (List FieldError) (List (String × Value)) :=
  collectResults (schema.map (validateField raw))

/-- The User schema of src/04 (main4.py lines 9-14): username str with
min_length 3 and max_length 50, email EmailStr, age optional int with
ge 0 and le 120, is_active bool defaulting to true. -/
def userSchema : List FieldSpec :=
  [ ⟨"username", .tStr, true, none, none, none, some 3, some 50, false⟩,
    ⟨"email", .tStr, true, none, none, none, none, none, true⟩,
    ⟨"age", .tInt, false, some .vNone, some 0, some 120, none, none, false⟩,
    ⟨"is_active", .tBool, false, some (.vBool true), none, none, none, none, false⟩ ]

/-! ### Response shaper

Modelled from the spec: project the result object onto exactly the
declared schema fields, in declared order; an undeclared field is
dropped; a declared field absent from the result object is a
ResponseMismatch. -/

def shape : List String → List (String × Value) →
    Except String (List (String × Value))
  | [], _ => .ok []
  | f :: fs, obj =>
      match obj.lookup f with
      | none => .error ("ResponseMismatch: missing field " ++ f)
      | some v =>
          match shape fs obj with
          | .error e => .error e
          | .ok rest => .ok ((f, v) :: rest)

/-- The declared field names of the UserOutput response schema of
src/05-response-models/main5.py. -/
def userOutputFields : List String := ["id", "username", "email", "is_active"]

/-- The result object register_user returns
(src/05-response-models/main5.py lines 34-48): it carries the password. -/
def registerUserResult (username email password : String) :
    List (String × Value) :=
  [ ("id", .vInt 123),
    ("username", .vStr username),
    ("email", .vStr email),
    ("is_active", .vBool true),
    ("password", .vStr password) ]

/-- The fake_user object get_user returns
(src/05-response-models/main5.py lines 50-64): it carries the password
and a credit_card field. -/
def getUserFakeUser (userId : Int) : List (String × Value) :=
  [ ("id", .vInt userId),
    ("username", .vStr "alice"),
    ("email", .vStr "alice@example.com"),
    ("is_active", .vBool true),
    ("password", .vStr "secret123"),
    ("credit_card", .vStr "1234-5678") ]

/-! ### Dependency resolver

Modelled from the spec: resolution is recursive over the dependency DAG;
a provider already present in the request cache returns the cached value
(at-most-once invocation); otherwise its sub-dependencies are resolved
first (depth-first), the provider is invoked on their values, the result
is cached, and a scoped provider registers its teardown at the front of
the teardown list.  The teardown list is run front to back when the
request ends (equivalently: reverse registration order).  The log records
each actual provider invocation, in order, to observe invocation counts. -/

structure RState where
  cache : List (String × Value)
  teardowns : List String
  log : List String

inductive DepSpec where
  | mk (name : String) (subs : List DepSpec) (sc : Bool)
       (provider : List Value → Value)

def DepSpec.name : DepSpec → String
  | .mk n _ _ _ => n

mutual

def resolve : DepSpec → RState → RState × Value
  | .mk name subs sc provider, st =>
      match st.cache.lookup name with
      | some v => (st, v)
      | none =>
          let p := resolveList subs st
          let v := provider p.2
          (⟨(name, v) :: p.1.cache,
            if sc then name :: p.1.teardowns else p.1.teardowns,
            p.1.log ++ [name]⟩, v)

def resolveList : List DepSpec → RState → RState × List Value
  | [], st => (st, [])
  | d :: ds, st =>
      let p := resolve d st
      let q := resolveList ds p.1
      (q.1, p.2 :: q.2)

end

def initState : RState := ⟨[], [], []⟩

/-- The teardown callbacks in the order they run after the request: the
teardown list front to back (each scoped provider was registered at the
front, so this is reverse registration order, last acquired first). -/
def teardownOrder (st : RState) : List String := st.teardowns

/-- The value of the simulated database connection of
src/07-dependencies/main7.py get_database. -/
def dbValue : Value :=
  .vObj [("connected", .vBool true), ("data", .vList [.vInt 1, .vInt 2, .vInt 3])]

/-- get_database from src/07-dependencies/main7.py lines 73-82: a scoped
(yield) provider with no sub-dependencies. -/
def get_database : DepSpec := .mk "get_database" [] true (fun _ => dbValue)

/-- The value get_current_user returns
(src/07-dependencies/main7.py lines 84-92) for a given token query
parameter: None without a token, the simulated user otherwise. -/
def currentUserValue (token : Option String) : Value :=
  match token with
  | none => .vNone
  | some t => .vObj [("id", .vInt 1), ("username", .vStr "alice"), ("token", .vStr t)]

/-- get_current_user: depends on get_database and on the token query
parameter (fixed per request, folded into the provider closure). -/
def get_current_user (token : Option String) : DepSpec :=
  .mk "get_current_user" [get_database] false (fun _ => currentUserValue token)

/-- The dependency list of the handler get_my_profile
(src/07-dependencies/main7.py lines 94-112), in declaration order:
current_user (which itself depends on get_database) and db directly,
with the two providers kept abstract so the theorem speaks about any
provider behaviour. -/
def meChain (pdb pcu : List Value → Value) : List DepSpec :=
  [ .mk "get_current_user" [.mk "get_database" [] true pdb] false pcu,
    .mk "get_database" [] true pdb ]

/-- A scoped dependency chain A depends on B depends on C, every level
scoped; C is acquired first. -/
def chain3 (na nb nc : String) (pa pb pc : List Value → Value) : DepSpec :=
  .mk na [.mk nb [.mk nc [] true pc] true pb] true pa

/-! ### Database-basics create_user (src/08-database-basics/main.py)

The storage collaborator (a SQLAlchemy session) is modelled as the list
of stored users it holds; query(...).filter(username == u).first() is
the first list element with that username. -/

structure StoredUser where
  id : Nat
  username : String
  email : String
  fullName : Option String
  isActive : Bool
deriving DecidableEq, Repr

structure UserCreate where
  username : String
  email : String
  fullName : Option String
  isActive : Bool
deriving DecidableEq, Repr

abbrev UserStore := List StoredUser

def findByUsername (db : UserStore) (u : String) : Option StoredUser :=
  db.find? (fun x => x.username == u)

def findByEmail (db : UserStore) (e : String) : Option StoredUser :=
  db.find? (fun x => x.email == e)

/-- The id the database assigns on commit/refresh (autoincrement),
modelled as one more than the largest stored id. -/
def nextUserId (db : UserStore) : Nat := (db.map StoredUser.id).foldl max 0 + 1

/-- create_user from src/08-database-basics/main.py lines 74-133: reject
a duplicate username with a 400 whose detail names the username, then a
duplicate email likewise, otherwise add the new user and return it.  The
first component is the store after the request. -/
def create_user (db : UserStore) (user : UserCreate) :
    UserStore × Except HTTPError StoredUser :=
  match findByUsername db user.username with
  | some _ =>
      (db, .error ⟨400, "Username \'" ++ user.username ++ "\' is already taken"⟩)
  | none =>
      match findByEmail db user.email with
      | some _ =>
          (db, .error ⟨400, "Email \'" ++ user.email ++ "\' is already registered"⟩)
      | none =>
          let newUser : StoredUser :=
            ⟨nextUserId db, user.username, user.email, user.fullName, user.isActive⟩
          (db ++ [newUser], .ok newUser)

/-! ### Helper lemmas -/

lemma le_foldl_max (ks : List Nat) (a : Nat) : a ≤ ks.foldl max a := by
  induction ks generalizing a with
  | nil => exact le_refl a
  | cons x xs ih => exact le_trans (Nat.le_max_left a x) (ih (max a x))

lemma mem_le_foldl_max (ks : List Nat) (b : Nat) :
    ∀ a, b ∈ ks → b ≤ ks.foldl max a := by
  induction ks with
  | nil => intro a hb; cases hb
  | cons x xs ih =>
      intro a hb
      rcases List.mem_cons.mp hb with h | h
      · subst h
        exact le_trans (Nat.le_max_right a b) (le_foldl_max xs (max a b))
      · exact ih (max a x) h

lemma shape_lookup_none (schema : List String) (obj out : List (String × Value))
    (f : String) (h : shape schema obj = Except.ok out) (hf : ¬ f ∈ schema) :
    out.lookup f = none := by
  induction schema generalizing out with
  | nil =>
      simp only [shape] at h
      injection h with h
      simp [← h, List.lookup]
  | cons g gs ih =>
      rw [List.mem_cons, not_or] at hf
      obtain ⟨hfg, hfgs⟩ := hf
      unfold shape at h
      cases hg : obj.lookup g with
      | none => rw [hg] at h; exact absurd h (by simp)
      | some v =>
          rw [hg] at h
          cases hs : shape gs obj with
          | error e => rw [hs] at h; exact absurd h (by simp)
          | ok rest =>
              rw [hs] at h
              injection h with h
              have hbeq : (f == g) = false := beq_eq_false_iff_ne.mpr hfg
              rw [← h]
              simp only [List.lookup, hbeq]
              exact ih rest hs hfgs

/-! ### The claims -/

/-- C1: within one request, a dependency provider is invoked at most once;
with get_database declared both directly by the handler get_my_profile and
as a sub-dependency of get_current_user, it runs exactly once (the
invocation log holds it once) and both consumers observe the identical
resolved value (the sub-consumer receives exactly the value the direct
consumer is handed, for any provider behaviour pdb, pcu; the last conjunct
instantiates this at the concrete providers of main7.py). -/
theorem dependency_provider_invoked_once (pdb pcu : List Value → Value)
    (tok : Option String) :
    (resolveList (meChain pdb pcu) initState).1.log =
      ["get_database", "get_current_user"] ∧
    (resolveList (meChain pdb pcu) initState).1.log.count "get_database" = 1 ∧
    (resolveList (meChain pdb pcu) initState).2 = [pcu [pdb []], pdb []] ∧
    (resolveList [get_current_user tok, get_database] initState).2 =
      [currentUserValue tok, dbValue] :=
  ⟨rfl, rfl, rfl, rfl⟩

/-- C2: dispatch compares routes in registration order and the first
matching pattern wins: with GET /products/latest registered before
GET /products/(product_id), the raw path products/latest dispatches to
get_latest_products; with the two routes registered in reverse order the
variable route captures it. -/
theorem literal_route_first_match_wins :
    (dispatch routes2 "GET" ["products", "latest"]).map Route.handler =
      some "get_latest_products" ∧
    (dispatch routes2rev "GET" ["products", "latest"]).map Route.handler =
      some "get_product" := by
  constructor <;> rfl

/-- C3 counterexample: for the concrete scoped chain A depends on B depends
on C (C acquired first), the observed teardown order is not C, B, A. -/
theorem teardown_order_cba_refuted :
    teardownOrder ((resolve (chain3 "A" "B" "C"
        (fun _ => Value.vNone) (fun _ => Value.vNone) (fun _ => Value.vNone))
      initState).1) ≠ ["C", "B", "A"] := by
  intro h
  simp [teardownOrder, chain3, resolve, resolveList, initState, List.lookup] at h

/-- C3 amended: for every scoped dependency chain A depends on B depends on
C, where C is acquired first, each scoped provider registers its teardown
at the front of the teardown list, so the teardown callbacks run after the
request in the order A, then B, then C — the exact reverse of acquisition
order (last acquired, first released). -/
theorem teardown_order_reverse_acquisition (na nb nc : String)
    (pa pb pc : List Value → Value) :
    teardownOrder ((resolve (chain3 na nb nc pa pb pc) initState).1) =
      [na, nb, nc] :=
  rfl

/-- C4: response shaping projects the result onto exactly the declared
schema fields: any field absent from the schema is absent from the shaped
output; in particular the register_user result and the get_user fake_user
(which carry password and credit_card) shape under UserOutput to an output
without password or credit_card. -/
theorem response_shaping_drops_undeclared (username email password : String)
    (uid : Int) :
    (∀ (schema : List String) (obj out : List (String × Value)) (f : String),
        shape schema obj = Except.ok out → ¬ f ∈ schema →
        out.lookup f = none) ∧
    (∃ out, shape userOutputFields (registerUserResult username email password) =
        Except.ok out ∧ out.lookup "password" = none) ∧
    (∃ out, shape userOutputFields (getUserFakeUser uid) = Except.ok out ∧
        out.lookup "password" = none ∧ out.lookup "credit_card" = none) := by
  refine ⟨fun schema obj out f h hf => shape_lookup_none schema obj out f h hf, ?_, ?_⟩
  · exact ⟨[("id", .vInt 123), ("username", .vStr username),
      ("email", .vStr email), ("is_active", .vBool true)], rfl, rfl⟩
  · exact ⟨[("id", .vInt uid), ("username", .vStr "alice"),
      ("email", .vStr "alice@example.com"), ("is_active", .vBool true)],
      rfl, rfl, rfl⟩

/-- C5: validation does not short-circuit across fields: a body for the
User schema that omits the two required fields username and email and
carries an out-of-range age lists exactly three field errors, one per
offending field. -/
theorem validation_collects_all_errors (a : Int) (h : 120 < a) :
    validate userSchema [("age", Value.vInt a)] =
      Except.error [.missing "username", .missing "email", .rangeViolation "age"] := by
  have hle : (a ≤ 120) = False := by simp; omega
  have hge : (0 ≤ a) = True := by simp; omega
  simp [validate, userSchema, validateField, collectResults, List.lookup,
    typeCheck, constraintError, checkRange, checkLength, checkFormat,
    hle, hge]

/-- C5 witness at a concrete input. -/
theorem validation_collects_all_errors_witness :
    validate userSchema [("age", Value.vInt 200)] =
      Except.error [.missing "username", .missing "email", .rangeViolation "age"] :=
  validation_collects_all_errors 200 (by norm_num)

/-- C6: a query parameter declared with a default (limit : int = 10 on
/search) resolves to the default when the request omits it; one declared
without a default (q : str) makes an omitting request fail with a
ValidationError naming that field. -/
theorem query_default_and_required (raw : List (String × String)) (s : String) :
    (raw.lookup "q" = some s → raw.lookup "limit" = none →
      resolveQuery searchParams raw =
        Except.ok [("q", Value.vStr s), ("limit", Value.vInt 10)]) ∧
    (raw.lookup "q" = none →
      ∃ errs, resolveQuery searchParams raw = Except.error errs ∧
        FieldError.missing "q" ∈ errs ∧ "q" ∈ errs.map FieldError.field) := by
  constructor
  · intro hq hl
    simp [resolveQuery, searchParams, resolveQueryParam, hq, hl, coerce,
      collectResults]
  · intro hq
    have hqerr : resolveQueryParam raw ⟨"q", .tStr, none⟩ =
        Except.error (.missing "q") := by
      simp [resolveQueryParam, hq]
    cases h2 : resolveQueryParam raw ⟨"limit", .tInt, some (.vInt 10)⟩ with
    | error e =>
        refine ⟨[.missing "q", e], ?_, by simp, by simp [FieldError.field]⟩
        simp [resolveQuery, searchParams, collectResults, hqerr, h2]
    | ok v =>
        refine ⟨[.missing "q"], ?_, by simp, by simp [FieldError.field]⟩
        simp [resolveQuery, searchParams, collectResults, hqerr, h2]

/-- C7: the classification rule (path when the name matches a variable
segment of the pattern, else body when the declared type is a structured
schema type, else query), applied to the POST /mixed handler whose pattern
has no variable segments: user_id is a query parameter, user a body
parameter, token a query parameter. -/
theorem mixed_parameter_classification :
    mixedParams.map (classify mixedPattern) =
      [ParamSource.query, ParamSource.body, ParamSource.query] ∧
    classify mixedPattern ⟨"user_id", .tInt, none⟩ = ParamSource.query ∧
    classify mixedPattern ⟨"user", .tSchema "User", none⟩ = ParamSource.body ∧
    classify mixedPattern ⟨"token", .tStr, some (.vStr "default-token")⟩ =
      ParamSource.query :=
  ⟨rfl, rfl, rfl, rfl⟩

/-- C8: creating a user whose username already exists in storage raises a
400 error whose message identifies the duplicate username, and the store
is unchanged by that request. -/
theorem duplicate_username_rejected (db : UserStore) (user : UserCreate)
    (eu : StoredUser) (hmem : eu ∈ db) (hname : eu.username = user.username) :
    (create_user db user).1 = db ∧
    (create_user db user).2 =
      Except.error ⟨400, "Username \'" ++ user.username ++ "\' is already taken"⟩ := by
  have hex : ∃ x, findByUsername db user.username = some x := by
    rw [← Option.isSome_iff_exists]
    apply List.find?_isSome.mpr
    exact ⟨eu, hmem, by simp [hname]⟩
  obtain ⟨x, hx⟩ := hex
  constructor <;> simp [create_user, hx]

/-- C8 witness at a concrete store and request. -/
theorem duplicate_username_rejected_witness :
    (create_user [⟨1, "alice", "alice@example.com", none, true⟩]
        ⟨"alice", "bob@example.com", none, true⟩).1 =
      [⟨1, "alice", "alice@example.com", none, true⟩] ∧
    (create_user [⟨1, "alice", "alice@example.com", none, true⟩]
        ⟨"alice", "bob@example.com", none, true⟩).2 =
      Except.error ⟨400, "Username \'" ++ "alice" ++ "\' is already taken"⟩ :=
  duplicate_username_rejected [⟨1, "alice", "alice@example.com", none, true⟩]
    ⟨"alice", "bob@example.com", none, true⟩
    ⟨1, "alice", "alice@example.com", none, true⟩ (by simp) rfl

/-- C9: create_item computes the new id as max of the existing keys plus
one, so on every non-empty store the returned id is strictly greater than
every existing id; on the empty store (reachable by deleting the three
seeded items) the operation has no 201 result because max() of an empty
sequence raises. -/
theorem create_item_fresh_id_empty_raises (store : ItemStore) (item : Item)
    (h : store ≠ []) :
    (∃ nid store2, create_item store item = some (nid, store2) ∧
        (∀ k ∈ itemKeys store, k < nid) ∧
        store2 = store ++ [(nid, item)]) ∧
    create_item [] item = none ∧
    (∃ s1 s2 s3, delete_item fakeItems 1 = Except.ok s1 ∧
        delete_item s1 2 = Except.ok s2 ∧ delete_item s2 3 = Except.ok s3 ∧
        s3 = [] ∧ create_item s3 item = none) := by
  refine ⟨?_, rfl, ?_⟩
  · obtain ⟨kv, rest, hst⟩ := List.exists_cons_of_ne_nil h
    subst hst
    refine ⟨((rest.map Prod.fst).foldl max kv.1) + 1,
      (kv :: rest) ++ [(((rest.map Prod.fst).foldl max kv.1) + 1, item)],
      rfl, ?_, rfl⟩
    intro k hk
    simp only [itemKeys, List.map_cons, List.mem_cons] at hk
    rcases hk with hk | hk
    · subst hk
      exact Nat.lt_succ_of_le (le_foldl_max _ _)
    · exact Nat.lt_succ_of_le (mem_le_foldl_max (rest.map Prod.fst) k kv.1 hk)
  · exact ⟨[(2, ⟨"Mouse", 2999⟩), (3, ⟨"Keyboard", 7999⟩)],
      [(3, ⟨"Keyboard", 7999⟩)], [], rfl, rfl, rfl, rfl, rfl⟩

/-- C9 witness at the seeded store. -/
theorem create_item_fresh_id_empty_raises_witness :
    (∃ nid store2, create_item fakeItems ⟨"Laptop", 99999⟩ = some (nid, store2) ∧
        (∀ k ∈ itemKeys fakeItems, k < nid) ∧
        store2 = fakeItems ++ [(nid, ⟨"Laptop", 99999⟩)]) ∧
    create_item [] ⟨"Laptop", 99999⟩ = none ∧
    (∃ s1 s2 s3, delete_item fakeItems 1 = Except.ok s1 ∧
        delete_item s1 2 = Except.ok s2 ∧ delete_item s2 3 = Except.ok s3 ∧
        s3 = [] ∧ create_item s3 ⟨"Laptop", 99999⟩ = none) :=
  create_item_fresh_id_empty_raises fakeItems ⟨"Laptop", 99999⟩ (by decide)

/-- C10: validate_age checks its branches in order: every negative age
raises the 400 error (never the 403, though such an age is also below 18),
every age in 0..17 raises the 403 error, and every age of at least 18
returns the welcome message. -/
theorem validate_age_branch_order (age : Int) :
    (age < 0 → validate_age age = Except.error ⟨400, "Age cannot be negative"⟩) ∧
    (0 ≤ age → age < 18 →
      validate_age age = Except.error ⟨403, "You must be 18 or older"⟩) ∧
    (18 ≤ age →
      validate_age age =
        Except.ok ("Welcome! You are " ++ toString age ++ " years old")) := by
  refine ⟨?_, ?_, ?_⟩
  · intro h
    simp [validate_age, h]
  · intro h1 h2
    have hn : ¬ age < 0 := by omega
    simp [validate_age, hn, h2]
  · intro h
    have h1 : ¬ age < 0 := by omega
    have h2 : ¬ age < 18 := by omega
    simp [validate_age, h1, h2]

/-- C6 witness at concrete requests: one omitting limit, one omitting q. -/
theorem query_default_and_required_witness :
    resolveQuery searchParams [("q", "python")] =
      Except.ok [("q", Value.vStr "python"), ("limit", Value.vInt 10)] ∧
    (∃ errs, resolveQuery searchParams [] = Except.error errs ∧
      FieldError.missing "q" ∈ errs ∧ "q" ∈ errs.map FieldError.field) :=
  ⟨(query_default_and_required [("q", "python")] "python").1 rfl rfl,
   (query_default_and_required [] "python").2 rfl⟩

/-- C10 witness at concrete ages for the three branches. -/
theorem validate_age_branch_order_witness :
    validate_age (-5) = Except.error ⟨400, "Age cannot be negative"⟩ ∧
    validate_age 10 = Except.error ⟨403, "You must be 18 or older"⟩ ∧
    validate_age 21 =
      Except.ok ("Welcome! You are " ++ toString (21 : Int) ++ " years old") :=
  ⟨(validate_age_branch_order (-5)).1 (by norm_num),
   (validate_age_branch_order 10).2.1 (by norm_num) (by norm_num),
   (validate_age_branch_order 21).2.2 (by norm_num)⟩

end BookService
